import Mathlib

/-!
Verification of the type-parameter binding engine and checker registry of
`typecheck/framework.py`.

The embedding is shallow: Python dicts become association lists, the
instance-attached binding store (`__tc_bindings__`) becomes a heap of dicts
addressed by natural numbers inside a `World`, and `issubclass` becomes an
abstract boolean relation `sub : Ty → Ty → Bool` (instantiated with a small
concrete universe `PyTy`/`pySub` for witnesses and counterexamples).
Stateful methods return their result together with the updated state.
Python truthiness of the values involved is modelled where it matters:
a class object and an instance are always truthy, `None` is falsy, and an
empty dict is falsy (noted at each use site).
-/

/-- A Python dict lookup `d[k]` / `k in d`, as an association-list lookup. -/
def dictLookup {K V : Type} [DecidableEq K] : List (K × V) → K → Option V
  | [], _ => none
  | (k, v) :: rest, key => if k = key then some v else dictLookup rest key

/-- A Python dict assignment `d[k] = v`: overwrite the existing entry or append. -/
def dictInsert {K V : Type} [DecidableEq K] : List (K × V) → K → V → List (K × V)
  | [], key, v => [(key, v)]
  | (k, w) :: rest, key, v =>
      if k = key then (key, v) :: rest else (k, w) :: dictInsert rest key v

/-- Python `x in xs` for a list. -/
def memD {K : Type} [DecidableEq K] : K → List K → Bool
  | _, [] => false
  | x, y :: ys => if x = y then true else memD x ys

/-- Models `tg.TypeVar`: identity-bearing, with `__bound__`, `__covariant__`,
`__contravariant__` fixed at creation.  Python compares TypeVars by identity;
the `id` field carries that identity. -/
structure PyTypeVar (Ty : Type) where
  id : Nat
  bound : Option Ty
  covariant : Bool
  contravariant : Bool
deriving DecidableEq

/-- The aspects of the Python object passed as `instance=` that the source
reads: whether `type(instance) == tg.GenericMeta`, its `__parameters__`, and
the `__tc_bindings__` entry of `instance.__dict__` (a reference into the heap of
dicts, or `None`). -/
structure PyInstance (Ty : Type) where
  isGenericMeta : Bool
  parameters : List (PyTypeVar Ty)
  tcBindings : Option Nat

/-- The mutable world: a heap of dict objects (`dicts`, with `next` the next
fresh address) and the one instance the claims mention. -/
structure World (Ty : Type) where
  dicts : Nat → List (PyTypeVar Ty × Ty)
  next : Nat
  inst : PyInstance Ty

/-- `TypeVarNamespace` state: `_ns` (the call-scope dict), whether
`_instance` is not `None`, and `_instance_ns` (a heap reference or `None`). -/
structure TypeVarNamespace (Ty : Type) where
  ns : List (PyTypeVar Ty × Ty)
  hasInstance : Bool
  instanceNs : Option Nat

namespace TypeVarNamespace

variable {Ty : Type} [DecidableEq Ty]

/-- `__init__(self, instance=None)`:
`self._ns = dict()`; `self._instance = instance`;
`self._instance_ns = self._instance and self._instance.__dict__.get(NS_ATTRIBUTE)`.
If `instance` is `None` (falsy) the conjunction short-circuits to `None`. -/
def mkNamespace (w : World Ty) (withInstance : Bool) : TypeVarNamespace Ty :=
  { ns := [],
    hasInstance := withInstance,
    instanceNs := if withInstance then w.inst.tcBindings else none }

/-- `is_generic_in`: `type(self._instance)` must be `tg.GenericMeta`
(false when `_instance` is `None`, since `type(None)` is `NoneType`), and then
`typevar in self._instance.__parameters__`. -/
def is_generic_in (w : World Ty) (t : TypeVarNamespace Ty) (tv : PyTypeVar Ty) : Bool :=
  if t.hasInstance && w.inst.isGenericMeta then memD tv w.inst.parameters else false

/-- `bind_to_instance`: if `self._instance_ns is None`, a fresh empty dict is
stored as `__tc_bindings__` on the instance and `_instance_ns` now
refers to it; then `self._instance_ns[typevar] = its_type`.  The fresh-dict
branch fuses the allocation with the immediately following write. -/
def bind_to_instance (w : World Ty) (t : TypeVarNamespace Ty)
    (tv : PyTypeVar Ty) (its_type : Ty) : World Ty × TypeVarNamespace Ty :=
  match t.instanceNs with
  | none =>
      let r := w.next
      ({ dicts := fun i => if i = r then dictInsert [] tv its_type else w.dicts i,
         next := w.next + 1,
         inst := { w.inst with tcBindings := some r } },
       { t with instanceNs := some r })
  | some r =>
      ({ w with dicts := fun i => if i = r then dictInsert (w.dicts r) tv its_type
                                  else w.dicts i },
       t)

/-- `bind`: route to the instance store when `is_generic_in(typevar)`, else to
the call-scope dict.  (The source line `assert type(typevar) == tg.TypeVar`
always holds here since `tv` is a `PyTypeVar` by type.) -/
def bind (w : World Ty) (t : TypeVarNamespace Ty)
    (tv : PyTypeVar Ty) (its_type : Ty) : World Ty × TypeVarNamespace Ty :=
  if is_generic_in w t tv then bind_to_instance w t tv its_type
  else (w, { t with ns := dictInsert t.ns tv its_type })

/-- `is_bound`, as the truthiness of the Python return value:
`typevar in self._ns` or `self._instance_ns and typevar in self._instance_ns`
(the latter is falsy when `_instance_ns` is `None` or an empty dict, and an
empty dict contains no key, so truthiness equals containment). -/
def is_bound (w : World Ty) (t : TypeVarNamespace Ty) (tv : PyTypeVar Ty) : Bool :=
  if (dictLookup t.ns tv).isSome then true
  else
    match t.instanceNs with
    | none => false
    | some r => (dictLookup (w.dicts r) tv).isSome

/-- `binding_of`: call scope first, then the instance store, else `None`.
(The source guards with `self._instance_ns and typevar in self._instance_ns`;
the empty-dict falsy case coincides with a failed lookup.) -/
def binding_of (w : World Ty) (t : TypeVarNamespace Ty) (tv : PyTypeVar Ty) : Option Ty :=
  match dictLookup t.ns tv with
  | some ty => some ty
  | none =>
      match t.instanceNs with
      | none => none
      | some r => dictLookup (w.dicts r) tv

/-- The condition `binding and typevar.__bound__ and not issubclass(binding,
typevar.__bound__)`: class objects are truthy, so each `Option` is truthy
exactly when it is `some`. -/
def boundViolation (sub : Ty → Ty → Bool) (binding bnd : Option Ty) : Bool :=
  match binding, bnd with
  | some b, some u => ! sub b u
  | _, _ => false

/-- `is_compatible(typevar, its_type)`, threading the state; `sub` models
`issubclass`.  Returns the boolean result together with the updated world and
namespace. -/
def is_compatible (sub : Ty → Ty → Bool) (w : World Ty) (t : TypeVarNamespace Ty)
    (tv : PyTypeVar Ty) (its_type : Ty) : Bool × World Ty × TypeVarNamespace Ty :=
  let binding := binding_of w t tv
  if boundViolation sub binding tv.bound then (false, w, t)
  else
    match binding with
    | none =>
        let wt := bind w t tv its_type
        (true, wt.1, wt.2)
    | some b =>
        if tv.covariant then (sub its_type b, w, t)
        else if tv.contravariant then (sub b its_type, w, t)
        else (decide (b = its_type), w, t)

end TypeVarNamespace

/-- Python values as an `optional` checker sees them: the `Checker.no_value`
sentinel (compared by identity with `is`), `None`, or an ordinary value. -/
inductive PyValue (V : Type) where
  | noValue
  | pyNone
  | val (v : V)
deriving DecidableEq

/-- A checker: the uniform `check(value, namespace) -> bool` capability. -/
structure CheckerS (V NS : Type) where
  check : PyValue V → NS → Bool

namespace Checker

/-- One registry entry: a `(predicate, factory)` pair. -/
abbrev RegEntry (A C : Type) : Type := (A → Bool) × (A → C)

/-- `Checker.register(predicate, factory, prepend=False)`: prepend inserts at
index 0, otherwise append. -/
def register {A C : Type} (reg : List (RegEntry A C))
    (p : A → Bool) (f : A → C) (pre : Bool) : List (RegEntry A C) :=
  if pre then (p, f) :: reg else reg ++ [(p, f)]

/-- The `for predicate, factory in cls._registered` loop of `create`: first
matching predicate wins; the `else` of the loop returns `None`. -/
def createLoop {A C : Type} : List (RegEntry A C) → A → Option C
  | [], _ => none
  | (p, f) :: rest, a => if p a then some (f a) else createLoop rest a

/-- `Checker.create(annotation_or_checker)`: the `isinstance(x, cls)` test
becomes the sum type `A ⊕ C` (spec section 9 prescribes exactly this tagged
union); a checker passes through unchanged, an annotation is dispatched. -/
def create {A C : Type} (reg : List (RegEntry A C)) (x : A ⊕ C) : Option C :=
  match x with
  | Sum.inr c => some c
  | Sum.inl a => createLoop reg a

end Checker

/-- The `optional` checker object: `self._check = Checker.create(check)`
(which is `None` when no predicate matched an annotation argument). -/
structure OptionalChecker (V NS : Type) where
  wrapped : Option (CheckerS V NS)

/-- `optional.__init__(self, check)`. -/
def optionalInit {A V NS : Type} (reg : List (Checker.RegEntry A (CheckerS V NS)))
    (arg : A ⊕ CheckerS V NS) : OptionalChecker V NS :=
  ⟨Checker.create reg arg⟩

/-- `optional.check`: `value is Checker.no_value or value is None or
self._check.check(value, namespace)`, with Python short-circuiting: the
sentinel and `None` answer `True` without touching `self._check`; otherwise
the call would raise `AttributeError` when `self._check` is `None`, modelled
by the result `none`. -/
def OptionalChecker.check {V NS : Type} (o : OptionalChecker V NS)
    (v : PyValue V) (ns : NS) : Option Bool :=
  match v with
  | PyValue.noValue => some true
  | PyValue.pyNone => some true
  | PyValue.val x => o.wrapped.map fun c => c.check (PyValue.val x) ns

/-- A small concrete type universe for witnesses and counterexamples. -/
inductive PyTy where
  | intT
  | numberT
  | strT
  | boolT
deriving DecidableEq

/-- `issubclass` on the concrete universe: reflexive, with
`bool <: int <: Number` and `str` unrelated. -/
def pySub : PyTy → PyTy → Bool
  | PyTy.boolT, PyTy.intT => true
  | PyTy.boolT, PyTy.numberT => true
  | PyTy.intT, PyTy.numberT => true
  | a, b => decide (a = b)

/-- A world whose instance slot is irrelevant (namespaces are built with
`instance=None`, that is `hasInstance = false`). -/
def w0 : World PyTy := ⟨fun _ => [], 0, ⟨false, [], none⟩⟩

/-- The type parameter of the C1 scenario: covariant, upper bound `Number`. -/
def uCovB : PyTypeVar PyTy := ⟨0, some PyTy.numberT, true, false⟩

/-- An invariant type parameter with upper bound `Number`. -/
def vInv : PyTypeVar PyTy := ⟨1, some PyTy.numberT, false, false⟩

/-- A call-scope namespace in which `vInv` is bound to `str`, which violates
the declared upper bound `Number` (such a state is reachable by a direct
`bind`, which performs no bound check). -/
def nsInvStr : TypeVarNamespace PyTy := ⟨[(vInv, PyTy.strT)], false, none⟩

/-- A call-scope namespace in which `vInv` is bound to `int` (a binding that
satisfies the upper bound `Number`). -/
def nsInvInt : TypeVarNamespace PyTy := ⟨[(vInv, PyTy.intT)], false, none⟩

/-- A call-scope namespace in which `uCovB` is bound to `str`, violating its
upper bound `Number`. -/
def nsCovStr : TypeVarNamespace PyTy := ⟨[(uCovB, PyTy.strT)], false, none⟩

/-- A call-scope namespace in which `uCovB` is bound to `int` (satisfying
its upper bound `Number`), as the C1 scenario pre-binds it. -/
def nsCovInt : TypeVarNamespace PyTy := ⟨[(uCovB, PyTy.intT)], false, none⟩

/-- A plain (unbounded, invariant) type parameter declared by the generic
instance of `wG`. -/
def gv : PyTypeVar PyTy := ⟨3, none, false, false⟩

/-- A plain type parameter that is not among the parameters of the instance
of `wG`. -/
def cv : PyTypeVar PyTy := ⟨4, none, false, false⟩

/-- A world whose instance is a generic-class instance (`type(I)` is
`GenericMeta`) with declared parameter `gv` and no `__tc_bindings__` yet. -/
def wG : World PyTy := ⟨fun _ => [], 0, ⟨true, [gv], none⟩⟩

open TypeVarNamespace

theorem dictLookup_dictInsert_self {K V : Type} [DecidableEq K]
    (d : List (K × V)) (k : K) (v : V) :
    dictLookup (dictInsert d k v) k = some v := by
  induction d with
  | nil => simp [dictInsert, dictLookup]
  | cons hd tl ih =>
      obtain ⟨k1, v1⟩ := hd
      by_cases h : k1 = k
      · simp [dictInsert, h, dictLookup]
      · simp [dictInsert, h, dictLookup, ih]

@[simp]
theorem boundViolation_none_left {Ty : Type} (sub : Ty → Ty → Bool)
    (b : Option Ty) : boundViolation sub none b = false := by
  cases b <;> rfl

/-- When the type parameter is unbound, `is_compatible` binds it and returns
true, touching no other state. -/
theorem is_compatible_unbound {Ty : Type} [DecidableEq Ty]
    (sub : Ty → Ty → Bool) (w : World Ty) (t : TypeVarNamespace Ty)
    (v : PyTypeVar Ty) (T : Ty) (h : binding_of w t v = none) :
    is_compatible sub w t v T =
      (true, (TypeVarNamespace.bind w t v T).1, (TypeVarNamespace.bind w t v T).2) := by
  simp [is_compatible, h]

/-- When the type parameter is bound, `is_compatible` is a pure read: the
result is the bound-violation test followed by the variance comparison, and
the world and namespace come back unchanged. -/
theorem is_compatible_bound {Ty : Type} [DecidableEq Ty]
    (sub : Ty → Ty → Bool) (w : World Ty) (t : TypeVarNamespace Ty)
    (v : PyTypeVar Ty) (B T : Ty) (h : binding_of w t v = some B) :
    is_compatible sub w t v T =
      (if boundViolation sub (some B) v.bound then false
       else if v.covariant then sub T B
       else if v.contravariant then sub B T
       else decide (B = T), w, t) := by
  simp only [is_compatible, h]
  by_cases hb : boundViolation sub (some B) v.bound
  · simp [hb]
  · simp only [hb, if_false, Bool.false_eq_true]
    split_ifs <;> rfl

/-- After `bind`, the bound type parameter reads back as its new type
(provided it was not shadowed in the call scope). -/
theorem binding_of_bind {Ty : Type} [DecidableEq Ty]
    (w : World Ty) (t : TypeVarNamespace Ty) (v : PyTypeVar Ty) (T : Ty)
    (h : dictLookup t.ns v = none) :
    binding_of (TypeVarNamespace.bind w t v T).1
      (TypeVarNamespace.bind w t v T).2 v = some T := by
  unfold TypeVarNamespace.bind
  by_cases hg : is_generic_in w t v
  · simp only [hg, if_true]
    unfold bind_to_instance
    cases hins : t.instanceNs with
    | none => simp [binding_of, h, dictLookup_dictInsert_self]
    | some r => simp [binding_of, h, hins, dictLookup_dictInsert_self]
  · simp [hg, binding_of, dictLookup_dictInsert_self]

/-- Claim C1: the upper-bound check in `is_compatible` is applied to the
pre-existing binding, not to the observed type.  With binding `B` and
declared bound `U`: if `B` does not satisfy `U` the call returns false
regardless of the observed type; if `B` does satisfy `U` the result is
exactly the variance comparison.  Concretely (third conjunct), a covariant
parameter bounded by `Number` and pre-bound via a direct `bind` to `int`
gives `is_compatible(v, Number) = false`, because `Number` is not a subtype
of the binding `int`. -/
theorem C1_bound_checked_on_binding {Ty : Type} [DecidableEq Ty]
    (sub : Ty → Ty → Bool) (w : World Ty) (t : TypeVarNamespace Ty)
    (v : PyTypeVar Ty) (B U : Ty)
    (hB : binding_of w t v = some B) (hU : v.bound = some U) :
    (sub B U = false → ∀ T, (is_compatible sub w t v T).1 = false) ∧
    (sub B U = true → ∀ T, (is_compatible sub w t v T).1 =
        (if v.covariant then sub T B
         else if v.contravariant then sub B T
         else decide (B = T))) ∧
    (is_compatible pySub
        (TypeVarNamespace.bind w0 (mkNamespace w0 false) uCovB PyTy.intT).1
        (TypeVarNamespace.bind w0 (mkNamespace w0 false) uCovB PyTy.intT).2
        uCovB PyTy.numberT).1 = false := by
  refine ⟨?_, ?_, ?_⟩
  · intro hs T
    rw [is_compatible_bound sub w t v B T hB]
    simp [boundViolation, hU, hs]
  · intro hs T
    rw [is_compatible_bound sub w t v B T hB]
    simp [boundViolation, hU, hs]
  · rfl

theorem C1_witness :
    ((is_compatible pySub w0 nsCovStr uCovB PyTy.intT).1 = false) ∧
    ((is_compatible pySub w0 nsCovInt uCovB PyTy.numberT).1 =
      (if uCovB.covariant then pySub PyTy.numberT PyTy.intT
       else if uCovB.contravariant then pySub PyTy.intT PyTy.numberT
       else decide (PyTy.intT = PyTy.numberT))) :=
  ⟨(C1_bound_checked_on_binding pySub w0 nsCovStr uCovB PyTy.strT PyTy.numberT
      (by rfl) (by rfl)).1 (by rfl) PyTy.intT,
   (C1_bound_checked_on_binding pySub w0 nsCovInt uCovB PyTy.intT PyTy.numberT
      (by rfl) (by rfl)).2.1 (by rfl) PyTy.numberT⟩

/-- Claim C2: on a freshly constructed namespace in which the type parameter
is unbound, the first `is_compatible(v, T)` returns true, and afterwards
`binding_of(v) = T` — for every `T`, including one that does not satisfy the
declared upper bound of `v` (the bound is only ever checked against an
existing binding). -/
theorem C2_first_call_binds {Ty : Type} [DecidableEq Ty]
    (sub : Ty → Ty → Bool) (w : World Ty) (hasInst : Bool)
    (v : PyTypeVar Ty) (T : Ty)
    (h : binding_of w (mkNamespace w hasInst) v = none) :
    (is_compatible sub w (mkNamespace w hasInst) v T).1 = true ∧
    binding_of (is_compatible sub w (mkNamespace w hasInst) v T).2.1
      (is_compatible sub w (mkNamespace w hasInst) v T).2.2 v = some T := by
  rw [is_compatible_unbound sub w _ v T h]
  exact ⟨rfl, binding_of_bind w _ v T rfl⟩

theorem C2_witness :
    (is_compatible pySub w0 (mkNamespace w0 false) uCovB PyTy.strT).1 = true ∧
    binding_of (is_compatible pySub w0 (mkNamespace w0 false) uCovB PyTy.strT).2.1
      (is_compatible pySub w0 (mkNamespace w0 false) uCovB PyTy.strT).2.2
      uCovB = some PyTy.strT :=
  C2_first_call_binds pySub w0 false uCovB PyTy.strT rfl

/-- Claim C3: when the type parameter is already bound, `is_compatible` never
mutates state — the world and the namespace come back unchanged (so in
particular a call that returns false leaves the binding in place). -/
theorem C3_monotonic_binding {Ty : Type} [DecidableEq Ty]
    (sub : Ty → Ty → Bool) (w : World Ty) (t : TypeVarNamespace Ty)
    (v : PyTypeVar Ty) (B T : Ty) (h : binding_of w t v = some B) :
    (is_compatible sub w t v T).2.1 = w ∧
    (is_compatible sub w t v T).2.2 = t ∧
    binding_of (is_compatible sub w t v T).2.1
      (is_compatible sub w t v T).2.2 v = some B := by
  rw [is_compatible_bound sub w t v B T h]
  exact ⟨rfl, rfl, h⟩

theorem C3_witness :
    (is_compatible pySub w0 nsInvInt vInv PyTy.strT).2.1 = w0 ∧
    (is_compatible pySub w0 nsInvInt vInv PyTy.strT).2.2 = nsInvInt ∧
    binding_of (is_compatible pySub w0 nsInvInt vInv PyTy.strT).2.1
      (is_compatible pySub w0 nsInvInt vInv PyTy.strT).2.2 vInv = some PyTy.intT :=
  C3_monotonic_binding pySub w0 nsInvInt vInv PyTy.intT PyTy.strT rfl

/-- Claim C5 counterexample: `vInv` is invariant and bound — reachably, via a
direct `bind`, which performs no bound check — to `str`, which violates its
declared upper bound `Number`.  The claim predicts `is_compatible(vInv, str)
= true` (the observed type equals the binding), but the code returns false:
the bound-violation check fires on the existing binding first. -/
theorem C5_counterexample :
    binding_of w0 nsInvStr vInv = some PyTy.strT ∧
    vInv.covariant = false ∧ vInv.contravariant = false ∧
    (is_compatible pySub w0 nsInvStr vInv PyTy.strT).1 = false :=
  ⟨rfl, rfl, rfl, rfl⟩

/-- Claim C5 (amended): for an invariant type parameter bound to `T`,
`is_compatible(v, T)` is true provided the binding `T` satisfies the declared
upper bound of `v` (if any); and `is_compatible(v, U)` is false for every
`U ≠ T`, unconditionally. -/
theorem C5_amended_invariant {Ty : Type} [DecidableEq Ty]
    (sub : Ty → Ty → Bool) (w : World Ty) (t : TypeVarNamespace Ty)
    (v : PyTypeVar Ty) (T : Ty) (h : binding_of w t v = some T)
    (hco : v.covariant = false) (hcn : v.contravariant = false) :
    ((∀ U, v.bound = some U → sub T U = true) →
      (is_compatible sub w t v T).1 = true) ∧
    (∀ U, T ≠ U → (is_compatible sub w t v U).1 = false) := by
  constructor
  · intro hb
    rw [is_compatible_bound sub w t v T T h]
    have hbv : boundViolation sub (some T) v.bound = false := by
      cases hU : v.bound with
      | none => rfl
      | some u => simp [boundViolation, hb u hU]
    simp [hbv, hco, hcn]
  · intro U hne
    rw [is_compatible_bound sub w t v T U h]
    by_cases hbv : boundViolation sub (some T) v.bound
    · simp [hbv]
    · simp [hbv, hco, hcn, hne]

theorem C5_witness :
    (is_compatible pySub w0 nsInvInt vInv PyTy.intT).1 = true ∧
    (is_compatible pySub w0 nsInvInt vInv PyTy.numberT).1 = false :=
  ⟨(C5_amended_invariant pySub w0 nsInvInt vInv PyTy.intT (by rfl) (by rfl) (by rfl)).1
      (fun U hU => by
        have h2 : PyTy.numberT = U := Option.some.inj hU
        cases h2
        rfl),
   (C5_amended_invariant pySub w0 nsInvInt vInv PyTy.intT (by rfl) (by rfl) (by rfl)).2
      PyTy.numberT (by decide)⟩

/-- Claim C6 counterexample: `uCovB` is covariant and bound — reachably, via
a direct `bind` — to `str`, which violates its declared upper bound `Number`.
`str` is a subtype of the binding `str`, so the claim predicts
`is_compatible(uCovB, str) = true`, but the code returns false: the
bound-violation check fires on the existing binding before the covariance
comparison. -/
theorem C6_counterexample :
    binding_of w0 nsCovStr uCovB = some PyTy.strT ∧
    uCovB.covariant = true ∧
    pySub PyTy.strT PyTy.strT = true ∧
    (is_compatible pySub w0 nsCovStr uCovB PyTy.strT).1 = false :=
  ⟨rfl, rfl, rfl, rfl⟩

/-- Claim C6 (amended): for a covariant type parameter bound to `T` whose
binding `T` satisfies the declared upper bound of `v` (if any),
`is_compatible(v, S)` is true exactly for the subtypes `S` of `T`. -/
theorem C6_amended_covariant {Ty : Type} [DecidableEq Ty]
    (sub : Ty → Ty → Bool) (w : World Ty) (t : TypeVarNamespace Ty)
    (v : PyTypeVar Ty) (T : Ty) (h : binding_of w t v = some T)
    (hcov : v.covariant = true)
    (hb : ∀ U, v.bound = some U → sub T U = true) :
    ∀ S, (is_compatible sub w t v S).1 = sub S T := by
  intro S
  rw [is_compatible_bound sub w t v T S h]
  have hbv : boundViolation sub (some T) v.bound = false := by
    cases hU : v.bound with
    | none => rfl
    | some u => simp [boundViolation, hb u hU]
  simp [hbv, hcov]

theorem C6_witness :
    (is_compatible pySub w0 nsCovInt uCovB PyTy.boolT).1 =
      pySub PyTy.boolT PyTy.intT :=
  C6_amended_covariant pySub w0 nsCovInt uCovB PyTy.intT (by rfl) (by rfl)
    (fun U hU => by
      have h2 : PyTy.numberT = U := Option.some.inj hU
      cases h2
      rfl) PyTy.boolT

/-- Claim C4: scope routing across namespaces.  If the instance is a
generic-class instance and `v` is among its declared parameters, a binding
made through one namespace built with that instance is stored on the
instance and is visible, via `is_bound` and `binding_of`, to a second
namespace built with the same instance afterwards.  By contrast, a
call-scope binding — for a `v` not among the parameters of the instance (and
not already in the instance store) — made on one namespace is invisible to a
second namespace built with the same instance. -/
theorem C4_scope_routing {Ty : Type} [DecidableEq Ty]
    (w : World Ty) (v : PyTypeVar Ty) (T : Ty) :
    (w.inst.isGenericMeta = true → memD v w.inst.parameters = true →
       is_bound (TypeVarNamespace.bind w (mkNamespace w true) v T).1
         (mkNamespace (TypeVarNamespace.bind w (mkNamespace w true) v T).1 true)
         v = true ∧
       binding_of (TypeVarNamespace.bind w (mkNamespace w true) v T).1
         (mkNamespace (TypeVarNamespace.bind w (mkNamespace w true) v T).1 true)
         v = some T) ∧
    (memD v w.inst.parameters = false →
     (∀ r, w.inst.tcBindings = some r → dictLookup (w.dicts r) v = none) →
       binding_of (TypeVarNamespace.bind w (mkNamespace w true) v T).1
         (TypeVarNamespace.bind w (mkNamespace w true) v T).2 v = some T ∧
       is_bound (TypeVarNamespace.bind w (mkNamespace w true) v T).1
         (mkNamespace (TypeVarNamespace.bind w (mkNamespace w true) v T).1 true)
         v = false ∧
       binding_of (TypeVarNamespace.bind w (mkNamespace w true) v T).1
         (mkNamespace (TypeVarNamespace.bind w (mkNamespace w true) v T).1 true)
         v = none) := by
  constructor
  · intro hg hv
    cases ht : w.inst.tcBindings with
    | none =>
        simp [TypeVarNamespace.bind, is_generic_in, mkNamespace, hg, hv,
              bind_to_instance, ht, is_bound, binding_of, dictLookup,
              dictLookup_dictInsert_self]
    | some r =>
        simp [TypeVarNamespace.bind, is_generic_in, mkNamespace, hg, hv,
              bind_to_instance, ht, is_bound, binding_of, dictLookup,
              dictLookup_dictInsert_self]
  · intro hnv hstore
    refine ⟨?_, ?_, ?_⟩
    · simp [TypeVarNamespace.bind, is_generic_in, mkNamespace, hnv,
            binding_of, dictLookup, dictLookup_dictInsert_self]
    · cases ht : w.inst.tcBindings with
      | none =>
          simp [TypeVarNamespace.bind, is_generic_in, mkNamespace, hnv, ht,
                is_bound, dictLookup]
      | some r =>
          simp [TypeVarNamespace.bind, is_generic_in, mkNamespace, hnv, ht,
                is_bound, dictLookup, hstore r ht]
    · cases ht : w.inst.tcBindings with
      | none =>
          simp [TypeVarNamespace.bind, is_generic_in, mkNamespace, hnv, ht,
                binding_of, dictLookup]
      | some r =>
          simp [TypeVarNamespace.bind, is_generic_in, mkNamespace, hnv, ht,
                binding_of, dictLookup, hstore r ht]

theorem C4_witness :
    (is_bound (TypeVarNamespace.bind wG (mkNamespace wG true) gv PyTy.intT).1
       (mkNamespace (TypeVarNamespace.bind wG (mkNamespace wG true) gv PyTy.intT).1 true)
       gv = true) ∧
    (is_bound (TypeVarNamespace.bind wG (mkNamespace wG true) cv PyTy.intT).1
       (mkNamespace (TypeVarNamespace.bind wG (mkNamespace wG true) cv PyTy.intT).1 true)
       cv = false) :=
  ⟨((C4_scope_routing wG gv PyTy.intT).1 (by rfl) (by rfl)).1,
   ((C4_scope_routing wG cv PyTy.intT).2 (by rfl)
      (fun r hr => by simp [wG] at hr)).2.1⟩

/-- Claim C10: the instance-scope view of a namespace is a snapshot taken at
construction.  If `N` is built with the instance while the instance has no
`__tc_bindings__` store yet, an instance-scope binding later created through
a different namespace remains invisible to `N`: on `N`, `is_bound` is false
(falsy) and `binding_of` is `None` for every type parameter, because the
`_instance_ns` reference of `N` was read once as `None` in the constructor
and is never refreshed. -/
theorem C10_instance_view_snapshot {Ty : Type} [DecidableEq Ty]
    (w : World Ty) (hw : w.inst.tcBindings = none)
    (v vq : PyTypeVar Ty) (T : Ty) :
    is_bound (bind_to_instance w (mkNamespace w true) v T).1
      (mkNamespace w true) vq = false ∧
    binding_of (bind_to_instance w (mkNamespace w true) v T).1
      (mkNamespace w true) vq = none := by
  constructor <;> simp [is_bound, binding_of, mkNamespace, hw, dictLookup]

theorem C10_witness :
    is_bound (bind_to_instance wG (mkNamespace wG true) gv PyTy.intT).1
      (mkNamespace wG true) gv = false ∧
    binding_of (bind_to_instance wG (mkNamespace wG true) gv PyTy.intT).1
      (mkNamespace wG true) gv = none :=
  C10_instance_view_snapshot wG (by rfl) gv gv PyTy.intT

/-- Claim C7: the `optional` checker wrapping any inner checker accepts the
`no_value` sentinel and `None` regardless of the wrapped checker, and on any
other value returns exactly the result of the wrapped checker. -/
theorem C7_optional_checker {A V NS : Type}
    (reg : List (Checker.RegEntry A (CheckerS V NS)))
    (inner : CheckerS V NS) (ns : NS) :
    (optionalInit reg (Sum.inr inner)).check PyValue.noValue ns = some true ∧
    (optionalInit reg (Sum.inr inner)).check PyValue.pyNone ns = some true ∧
    ∀ x : V, (optionalInit reg (Sum.inr inner)).check (PyValue.val x) ns =
      some (inner.check (PyValue.val x) ns) :=
  ⟨rfl, rfl, fun _ => rfl⟩

theorem createLoop_eq_find {A C : Type} (a : A) :
    ∀ reg : List (Checker.RegEntry A C),
      Checker.createLoop reg a =
        (List.find? (fun e => e.1 a) reg).map (fun e => e.2 a)
  | [] => rfl
  | (p, f) :: rest => by
      by_cases h : p a
      · simp [Checker.createLoop, List.find?, h]
      · simp [Checker.createLoop, List.find?, h, createLoop_eq_find a rest]

/-- Claim C8: registry dispatch follows registration order with prepend
override: with two registered entries whose predicates both match, `create`
uses the factory of the entry registered first, unless the later entry was
registered with prepend, in which case the later factory is used; in
general, the first matching predicate in list order wins. -/
theorem C8_registration_order {A C : Type} :
    (∀ (p1 p2 : A → Bool) (f1 f2 : A → C) (a : A),
       p1 a = true → p2 a = true →
       Checker.create (Checker.register (Checker.register [] p1 f1 false) p2 f2 false)
         (Sum.inl a) = some (f1 a) ∧
       Checker.create (Checker.register (Checker.register [] p1 f1 false) p2 f2 true)
         (Sum.inl a) = some (f2 a)) ∧
    (∀ (reg : List (Checker.RegEntry A C)) (a : A),
       Checker.create reg (Sum.inl a) =
         (List.find? (fun e => e.1 a) reg).map (fun e => e.2 a)) := by
  constructor
  · intro p1 p2 f1 f2 a h1 h2
    constructor
    · simp [Checker.create, Checker.register, Checker.createLoop, h1]
    · simp [Checker.create, Checker.register, Checker.createLoop, h1, h2]
  · intro reg a
    exact createLoop_eq_find a reg

theorem C8_witness :
    Checker.create (Checker.register (Checker.register []
        (fun _ : Nat => true) (fun _ => (1 : Nat)) false)
        (fun _ => true) (fun _ => 2) false) (Sum.inl 0) = some 1 ∧
    Checker.create (Checker.register (Checker.register []
        (fun _ : Nat => true) (fun _ => (1 : Nat)) false)
        (fun _ => true) (fun _ => 2) true) (Sum.inl 0) = some 2 :=
  C8_registration_order.1 (fun _ => true) (fun _ => true)
    (fun _ => 1) (fun _ => 2) 0 rfl rfl

/-- Claim C9: `create` is idempotent on checkers — a value that is already a
checker is returned itself, so feeding the result of `create` back in
returns the same instance — and an annotation matching no registered
predicate yields the absent value (`none`) rather than an error. -/
theorem C9_create_idempotent {A C : Type} :
    (∀ (reg : List (Checker.RegEntry A C)) (c : C),
       Checker.create reg (Sum.inr c) = some c) ∧
    (∀ (reg : List (Checker.RegEntry A C)) (x : A ⊕ C) (c : C),
       Checker.create reg x = some c → Checker.create reg (Sum.inr c) = some c) ∧
    (∀ (reg : List (Checker.RegEntry A C)) (a : A),
       (∀ e ∈ reg, e.1 a = false) → Checker.create reg (Sum.inl a) = none) := by
  refine ⟨fun reg c => rfl, fun reg x c _ => rfl, ?_⟩
  intro reg a
  induction reg with
  | nil => intro _; rfl
  | cons e rest ih =>
      intro h
      obtain ⟨p, f⟩ := e
      have hp : p a = false := h (p, f) (List.mem_cons_self _ _)
      show Checker.createLoop ((p, f) :: rest) a = none
      simp only [Checker.createLoop, hp, Bool.false_eq_true, if_false]
      exact ih (fun e he => h e (List.mem_cons_of_mem _ he))

theorem C9_witness :
    Checker.create ([] : List (Checker.RegEntry Nat Nat)) (Sum.inr 5) = some 5 ∧
    Checker.create [((fun _ : Nat => false), (fun _ : Nat => (0 : Nat)))]
      (Sum.inl 3) = none :=
  ⟨C9_create_idempotent.1 [] 5,
   C9_create_idempotent.2.2 [((fun _ => false), (fun _ => 0))] 3
     (fun e he => by
        rw [List.mem_singleton] at he
        subst he
        rfl)⟩
